import Mathlib

/-!
Verification of the derived-metrics engine of the hanoi-relocation dashboard
(`src/app/routes/api.py`, `src/app/routes/today.py`, `src/app/database.py`).

Modelling conventions:
* Calendar dates are modelled as day numbers (`ℤ`).  The source stores dates
  as canonical `YYYY-MM-DD` strings whose lexicographic order coincides with
  chronological order, so set membership, `>=` filters and the day-by-day
  walk `current_date -= timedelta(days=1)` translate to integer membership,
  `≤` filters and subtraction by one.  Concrete dates in witnesses use the
  proleptic-Gregorian ordinal (as Python's `date.toordinal`), e.g.
  2024-01-01 ↦ 738886.
* Python numbers are modelled exactly in `ℚ`; `int(x)` is truncation toward
  zero (`pyInt`), and `round(x, 1)` is round-half-to-even at one decimal
  (`roundTo1`), matching Python's rounding mode.
* The set of distinct session dates (`set(s['session_date'] for s in ...)`)
  is a `Finset ℤ`.
-/

namespace Hanoi

/-- Python `int(x)` applied to a number: truncation toward zero. -/
def pyInt (q : ℚ) : ℤ := if 0 ≤ q then ⌊q⌋ else ⌈q⌉

/-- The backward `while current_date.isoformat() in session_dates` loop that
both streak functions in `src/app/routes/api.py` (and the identical copies in
`src/app/database.py`) run: starting at day `d`, count how many consecutive
days, walking backward, belong to the session-date set `s`.  The recursion
erases the visited day, which leaves the membership tests of the remaining
(strictly smaller) days unchanged. -/
def runLen (s : Finset ℤ) (d : ℤ) : ℕ :=
  if h : d ∈ s then runLen (s.erase d) (d - 1) + 1 else 0
termination_by s.card
decreasing_by
  have hpos : 0 < s.card := Finset.card_pos.mpr ⟨d, h⟩
  rw [Finset.card_erase_of_mem h]
  omega

theorem runLen_notMem {s : Finset ℤ} {d : ℤ} (h : d ∉ s) : runLen s d = 0 := by
  rw [runLen]
  simp [h]

theorem runLen_mem_erase {s : Finset ℤ} {d : ℤ} (h : d ∈ s) :
    runLen s d = runLen (s.erase d) (d - 1) + 1 := by
  rw [runLen]
  simp [h]

/-- Erasing an element strictly above the walk's starting point does not
change the walk. -/
theorem runLen_erase_of_lt (s : Finset ℤ) :
    ∀ (d e : ℤ), d < e → runLen (s.erase e) d = runLen s d := by
  induction s using Finset.strongInduction with
  | _ s ih =>
    intro d e hde
    by_cases hd : d ∈ s
    · have hd' : d ∈ s.erase e := Finset.mem_erase.mpr ⟨by omega, hd⟩
      rw [runLen_mem_erase hd', runLen_mem_erase hd, Finset.erase_right_comm,
        ih (s.erase d) (Finset.erase_ssubset hd) (d - 1) e (by omega)]
    · have hd' : d ∉ s.erase e := fun hc => hd (Finset.mem_of_mem_erase hc)
      rw [runLen_notMem hd', runLen_notMem hd]

/-- The clean recurrence of the backward walk. -/
theorem runLen_mem {s : Finset ℤ} {d : ℤ} (h : d ∈ s) :
    runLen s d = runLen s (d - 1) + 1 := by
  rw [runLen_mem_erase h, runLen_erase_of_lt s (d - 1) d (by omega)]

/-- Every day reached by the walk is a session day: the walk counts a run of
consecutive member days. -/
theorem runLen_mem_of_lt (s : Finset ℤ) :
    ∀ (k : ℕ) (d : ℤ), k < runLen s d → d - (k : ℤ) ∈ s := by
  intro k
  induction k with
  | zero =>
    intro d hk
    by_contra hd
    rw [Nat.cast_zero, sub_zero] at hd
    rw [runLen_notMem hd] at hk
    omega
  | succ n ihn =>
    intro d hk
    have hd : d ∈ s := by
      by_contra hd
      rw [runLen_notMem hd] at hk
      omega
    rw [runLen_mem hd] at hk
    have := ihn (d - 1) (by omega)
    have heq : d - 1 - (n : ℤ) = d - ((n : ℤ) + 1) := by ring
    rw [heq] at this
    simpa [Nat.cast_add] using this

/-- The day just before the counted run is not a session day: the run is
maximal. -/
theorem runLen_boundary (s : Finset ℤ) :
    ∀ (n : ℕ) (d : ℤ), runLen s d = n → d - (n : ℤ) ∉ s := by
  intro n
  induction n with
  | zero =>
    intro d h hd
    rw [Nat.cast_zero, sub_zero] at hd
    rw [runLen_mem hd] at h
    omega
  | succ n ihn =>
    intro d h
    have hd : d ∈ s := by
      by_contra hd
      rw [runLen_notMem hd] at h
      omega
    rw [runLen_mem hd] at h
    have := ihn (d - 1) (by omega)
    have heq : d - 1 - (n : ℤ) = d - ((n : ℤ) + 1) := by ring
    rw [heq] at this
    simpa [Nat.cast_add] using this

/-- `calculate_streak` from `src/app/routes/api.py` lines 109-130 (the copy in
`src/app/database.py` lines 597-616 is identical): if there is no session
today, fall back to yesterday; if yesterday has none either, return 0;
otherwise count the backward run from the chosen starting day. -/
def calculate_streak (s : Finset ℤ) (today : ℤ) : ℕ :=
  if s = ∅ then 0
  else if today ∈ s then runLen s today
  else if today - 1 ∈ s then runLen s (today - 1)
  else 0

/-- The record returned by `calculate_streak_with_grace`. -/
structure GraceResult where
  streak : ℕ
  at_risk : Bool
  grace_active : Bool
  practiced_today : Bool
deriving DecidableEq, Repr

/-- `calculate_streak_with_grace` from `src/app/routes/api.py` lines 133-166
(the copy in `src/app/database.py` lines 619-646 is identical; the api copy
additionally computes an unused `practiced_day_before`). -/
def calculate_streak_with_grace (s : Finset ℤ) (today : ℤ) : GraceResult :=
  if s = ∅ then ⟨0, false, false, false⟩
  else if today ∈ s then ⟨runLen s today, false, false, true⟩
  else if today - 1 ∈ s then ⟨runLen s (today - 1), true, true, false⟩
  else ⟨0, false, false, false⟩

/-- The capped percent used for `py_percent`, `vn_percent` and
`income_percent` in `get_recommendations` (`src/app/routes/api.py` lines
188-195) and `get_smart_focus` (`src/app/routes/today.py` lines 190-199):
`min(100, int((actual / target) * 100)) if target > 0 else 100`. -/
def get_recommendations_percent (actual target : ℚ) : ℤ :=
  if 0 < target then min 100 (pyInt (actual / target * 100)) else 100

/-- `daily_progress` in `get_python_data` (`src/app/routes/today.py` line 66):
`min(100, int((today_hours / daily_target) * 100)) if daily_target > 0 else 0`. -/
def get_python_data_daily_progress (today_hours daily_target : ℚ) : ℤ :=
  if 0 < daily_target then min 100 (pyInt (today_hours / daily_target * 100)) else 0

/-- `week_progress` in `get_python_data` (`src/app/routes/today.py` line 67). -/
def get_python_data_week_progress (week_hours weekly_target : ℚ) : ℤ :=
  if 0 < weekly_target then min 100 (pyInt (week_hours / weekly_target * 100)) else 0

/-- `daily_progress` in `get_vietnamese_data` (`src/app/routes/today.py` line 112). -/
def get_vietnamese_data_daily_progress (today_minutes daily_target : ℚ) : ℤ :=
  if 0 < daily_target then min 100 (pyInt (today_minutes / daily_target * 100)) else 0

/-- `week_progress` in `get_vietnamese_data` (`src/app/routes/today.py` line 113). -/
def get_vietnamese_data_week_progress (week_minutes weekly_target_minutes : ℚ) : ℤ :=
  if 0 < weekly_target_minutes then
    min 100 (pyInt (week_minutes / weekly_target_minutes * 100))
  else 0

/-- `income_progress` in `get_income_data` (`src/app/routes/today.py` line 154):
also `else 0` when the target is zero. -/
def get_income_data_progress (income_this_month income_target : ℚ) : ℤ :=
  if 0 < income_target then
    min 100 (pyInt (income_this_month / income_target * 100))
  else 0

/-- The "this month" income rollup of `get_recommendations` lines 192-193,
`get_stats` lines 456-457, `get_today` lines 528-529 and `get_income_data`
(`today.py` lines 147-149), and `get_freelance_income_since` in
`src/app/database.py` lines 437-444: sum the amounts of the projects whose
date is on or after `month_start` (the SQL filter `project_date >= ?` and the
Python filter `p['project_date'] >= month_start.isoformat()` coincide).
A project is a pair (date, amount). -/
def income_this_month (projects : List (ℤ × ℚ)) (month_start : ℤ) : ℚ :=
  ((projects.filter fun p => month_start ≤ p.1).map Prod.snd).sum

/-- Modelled from the spec: the "this month" rollup the spec describes, the
sum of the amounts whose date lies in the inclusive range from day 1 of the
current month to today.  Stated only to compare with `income_this_month`,
which is translated from the source. -/
def income_in_range_spec (projects : List (ℤ × ℚ)) (month_start today : ℤ) : ℚ :=
  ((projects.filter fun p => month_start ≤ p.1 ∧ p.1 ≤ today).map Prod.snd).sum

/-- The letter-grade cascade of `get_recommendations`
(`src/app/routes/api.py` lines 210-218). -/
def grade (avg : ℚ) : Char :=
  if 90 ≤ avg then 'A'
  else if 75 ≤ avg then 'B'
  else if 60 ≤ avg then 'C'
  else 'D'

/-- `avg_percent` of `get_recommendations` line 210: the unweighted mean of
the three capped percents. -/
def avg_percent (py_percent vn_percent income_percent : ℤ) : ℚ :=
  ((py_percent : ℚ) + (vn_percent : ℚ) + (income_percent : ℚ)) / 3

/-- Round half to even to an integer, the rounding mode of Python's
`round`. -/
def roundHalfEven (x : ℚ) : ℤ :=
  let f := ⌊x⌋
  let r := x - f
  if r < 1 / 2 then f
  else if 1 / 2 < r then f + 1
  else if f % 2 = 0 then f else f + 1

/-- Python's `round(x, 1)`: round half to even at one decimal. -/
def roundTo1 (x : ℚ) : ℚ := (roundHalfEven (10 * x) : ℚ) / 10

/-- `hours_remaining` of the pacing projector (`src/app/routes/api.py` line
202, where the target is the constant 600): `max(0, target - total)`. -/
def hours_remaining (target total : ℚ) : ℚ := max 0 (target - total)

/-- `weeks_remaining` of the pacing projector (line 203):
`max(1, (target_date - today).days / 7)`, true division. -/
def weeks_remaining (days : ℤ) : ℚ := max 1 ((days : ℚ) / 7)

/-- `required_weekly` of the pacing projector (line 204). -/
def required_weekly_rate (target total : ℚ) (days : ℤ) : ℚ :=
  roundTo1 (hours_remaining target total / weeks_remaining days)

/-- An ASCII-safe apostrophe for the literal strings of the source. -/
def apos : String := (Char.ofNat 39).toString

/-- The `suggestions['python']` pool of `determine_daily_focus`. -/
def python_suggestions : List String :=
  ["Work through a Python tutorial or course module",
   "Practice coding challenges on LeetCode or HackerRank",
   "Build a small project to apply what you" ++ apos ++ "ve learned"]

/-- The `suggestions['vietnamese']` pool of `determine_daily_focus`. -/
def vietnamese_suggestions : List String :=
  ["Complete a Duolingo lesson",
   "Listen to a VietnamesePod101 episode",
   "Practice speaking with a tutor on italki"]

/-- The `suggestions['freelance']` pool of `determine_daily_focus`. -/
def freelance_suggestions : List String :=
  ["Browse Upwork for new opportunities",
   "Update your portfolio or profile",
   "Reach out to past clients for referrals"]

/-- The `suggestions['balanced']` pool of `determine_daily_focus`. -/
def balanced_suggestions : List String :=
  ["Great job staying on track!",
   "Consider working on your portfolio",
   "Take time to review and consolidate learning"]

/-- The record returned by `determine_daily_focus`. -/
structure Focus where
  area : String
  priority : String
  reason : String
  suggestion : String
  icon : String
deriving DecidableEq, Repr

/-- `determine_daily_focus` from `src/app/routes/api.py` lines 264-359.
`choice` is the injected `random.choice`; `mins_today` is the sum of today's
Vietnamese minutes that the streak-protection branch reads from the store. -/
def determine_daily_focus (choice : List String → String) (mins_today : ℤ)
    (py_percent vn_percent income_percent : ℤ) (streak_info : GraceResult) : Focus :=
  if streak_info.at_risk ∧ streak_info.practiced_today = false then
    ⟨"vietnamese", "urgent",
     "Your " ++ toString streak_info.streak ++ "-day streak is at risk!",
     "Just " ++ toString (max 15 (60 - mins_today)) ++ " more minutes to keep it alive",
     "🔥"⟩
  else if vn_percent < py_percent ∧ vn_percent < 70 then
    ⟨"vietnamese", "high",
     "You" ++ apos ++ "re at " ++ toString vn_percent ++
       "% of your Vietnamese target (vs " ++ toString py_percent ++ "% Python)",
     choice vietnamese_suggestions, "🇻🇳"⟩
  else if py_percent < vn_percent ∧ py_percent < 70 then
    ⟨"python", "high",
     "You" ++ apos ++ "re at " ++ toString py_percent ++
       "% of your Python target (vs " ++ toString vn_percent ++ "% Vietnamese)",
     choice python_suggestions, "🐍"⟩
  else if 70 ≤ py_percent ∧ 70 ≤ vn_percent ∧ income_percent < 50 then
    ⟨"freelance", "medium",
     "Learning is on track! Income is at " ++ toString income_percent ++ "% of target",
     choice freelance_suggestions, "💼"⟩
  else if 80 ≤ py_percent ∧ 80 ≤ vn_percent then
    ⟨"balanced", "low",
     "You" ++ apos ++ "re crushing it this week!",
     choice balanced_suggestions, "🎯"⟩
  else if py_percent ≤ vn_percent then
    ⟨"python", "medium",
     "Python is at " ++ toString py_percent ++ "% - room for improvement",
     choice python_suggestions, "🐍"⟩
  else
    ⟨"vietnamese", "medium",
     "Vietnamese is at " ++ toString vn_percent ++ "% - room for improvement",
     choice vietnamese_suggestions, "🇻🇳"⟩

/-- The goal-adjustment record of `get_recommendations`. -/
structure Adjustment where
  needed : Bool
  message : String
  suggested_python : ℤ
  suggested_vietnamese : ℤ
deriving DecidableEq, Repr

/-- The goal-adjustment advisory of `get_recommendations`
(`src/app/routes/api.py` lines 220-230): `adjustment` stays `None` unless
both percents are below 50. -/
def goal_adjustment (py_percent vn_percent : ℤ) (py_target vn_target : ℚ) :
    Option Adjustment :=
  if py_percent < 50 ∧ vn_percent < 50 then
    some ⟨true,
      "Consider adjusting targets: Python to " ++
        toString (max 4 (pyInt (py_target * (7 / 10)))) ++
        "h/week, Vietnamese to " ++
        toString (max 4 (pyInt (vn_target * (7 / 10)))) ++ "h/week",
      max 4 (pyInt (py_target * (7 / 10))),
      max 4 (pyInt (vn_target * (7 / 10)))⟩
  else none

/-- A settings value: a string, a number, or the nested exchange-rates map. -/
inductive SVal where
  | str (v : String)
  | num (v : ℚ)
  | rates (m : List (String × ℚ))
deriving DecidableEq, Repr

/-- The body of the `for key, value in data.items()` loop of
`update_settings` (`src/app/routes/api.py` lines 576-582): assign the value
when the key already exists in the settings dict, otherwise ignore it.  The
settings dict is modelled as an association list with distinct keys. -/
def set_if_present (s : List (String × SVal)) (key : String) (v : SVal) :
    List (String × SVal) :=
  s.map fun e => if e.1 = key then (e.1, v) else e

/-- `update_settings` from `src/app/routes/api.py` lines 576-582: fold the
per-key assignment over the supplied partial update. -/
def update_settings (s : List (String × SVal)) (data : List (String × SVal)) :
    List (String × SVal) :=
  data.foldl (fun acc kv => set_if_present acc kv.1 kv.2) s

/-- The default settings dict (`DATA['settings']` in `src/app/routes/api.py`
lines 15-30), used as a concrete settings state. -/
def default_settings : List (String × SVal) :=
  [("target_date", SVal.str "2026-10-31"),
   ("income_target", SVal.num 7500),
   ("python_weekly_target", SVal.num 8),
   ("vietnamese_weekly_target", SVal.num 7),
   ("savings", SVal.num 27500),
   ("monthly_burn", SVal.num 3000),
   ("preferred_currency", SVal.str "EUR"),
   ("github_username", SVal.str ""),
   ("exchange_rates", SVal.rates [("EUR", 497 / 100), ("USD", 455 / 100), ("VND", 18 / 100000)])]

/-- A deterministic stand-in for `random.choice`, used to instantiate the
recommendation engine at concrete inputs. -/
def fixed_choice : List String → String := fun l => l.headD ""

/-- Unfolding `List.lookup` one cell at a time, with a propositional
condition. -/
theorem lookup_pair_cons (k : String) (x : String × SVal) (l : List (String × SVal)) :
    List.lookup k (x :: l) = if k = x.1 then some x.2 else List.lookup k l := by
  obtain ⟨a, b⟩ := x
  by_cases h : k = a
  · subst h
    simp [List.lookup]
  · simp [List.lookup, beq_eq_false_iff_ne.mpr h, h]

/-- Looking a key up after one `set_if_present` pass: the targeted key's
value is replaced when present, every other key reads as before. -/
theorem lookup_set_if_present (s : List (String × SVal)) (key : String) (v : SVal)
    (k : String) :
    (set_if_present s key v).lookup k =
      if k = key then (s.lookup k).map (fun _ => v) else s.lookup k := by
  induction s with
  | nil =>
    simp only [set_if_present, List.map_nil, List.lookup_nil]
    split <;> rfl
  | cons e t ih =>
    obtain ⟨a, b⟩ := e
    have hmap : set_if_present ((a, b) :: t) key v =
        (if a = key then (a, v) else (a, b)) :: set_if_present t key v := by
      simp [set_if_present]
    rw [hmap, lookup_pair_cons k _ (set_if_present t key v), lookup_pair_cons k (a, b) t]
    by_cases hak : a = key
    · rw [if_pos hak]
      by_cases hka : k = a
      · subst hka
        rw [if_pos rfl, if_pos rfl, if_pos hak]
        rfl
      · simp only [if_neg hka]
        rw [ih]
    · rw [if_neg hak]
      by_cases hka : k = a
      · subst hka
        rw [if_pos rfl, if_pos rfl, if_neg hak]
      · simp only [if_neg hka]
        rw [ih]

/-- Claim C1, counterexample: with a session logged only yesterday
(2024-01-02, day 738887) and today = 2024-01-03 (day 738888), today has no
session yet `calculate_streak` does not return 0 — the "strict" variant does
look back one day. -/
theorem claim_C1_counterexample :
    (738888 : ℤ) ∉ ({738887} : Finset ℤ) ∧
    calculate_streak ({738887} : Finset ℤ) 738888 ≠ 0 := by
  refine ⟨by decide, ?_⟩
  have h0 : runLen ({738887} : Finset ℤ) 738886 = 0 := runLen_notMem (by decide)
  have h1 : runLen ({738887} : Finset ℤ) 738887 = 1 := by
    rw [runLen_mem (show (738887 : ℤ) ∈ ({738887} : Finset ℤ) by decide),
      show (738887 : ℤ) - 1 = 738886 by norm_num, h0]
  have hcs : calculate_streak ({738887} : Finset ℤ) 738888 =
      runLen ({738887} : Finset ℤ) (738888 - 1) := by
    unfold calculate_streak
    rw [if_neg (by decide), if_neg (by decide), if_pos (by decide)]
  rw [hcs, show (738888 : ℤ) - 1 = 738887 by norm_num, h1]
  exact one_ne_zero

/-- Claim C1 (amended): if neither today nor yesterday has a session,
`calculate_streak` returns 0; if yesterday has a session but today does not,
it returns the (positive) length of the maximal run of consecutive session
days ending yesterday — a one-day look-back exists in the strict variant
too. -/
theorem claim_C1_amended (s : Finset ℤ) (today : ℤ) (ht : today ∉ s) :
    (today - 1 ∉ s → calculate_streak s today = 0) ∧
    (today - 1 ∈ s →
      0 < calculate_streak s today ∧
      (∀ k : ℕ, k < calculate_streak s today → today - 1 - (k : ℤ) ∈ s) ∧
      today - 1 - (calculate_streak s today : ℤ) ∉ s) := by
  constructor
  · intro hy
    unfold calculate_streak
    split_ifs <;> rfl
  · intro hy
    have hne : s ≠ ∅ := Finset.ne_empty_of_mem hy
    have hcs : calculate_streak s today = runLen s (today - 1) := by
      unfold calculate_streak
      rw [if_neg hne, if_neg ht, if_pos hy]
    rw [hcs]
    refine ⟨?_, ?_, ?_⟩
    · rw [runLen_mem hy]; omega
    · intro k hk
      exact runLen_mem_of_lt s k (today - 1) hk
    · exact runLen_boundary s _ (today - 1) rfl

/-- Witness for C1 (amended): sessions = {2024-01-02}, today = 2024-01-03 —
no session today, one yesterday, and the streak is positive. -/
theorem claim_C1_witness :
    0 < calculate_streak ({738887} : Finset ℤ) 738888 :=
  ((claim_C1_amended {738887} 738888 (by decide)).2 (by decide)).1

/-- Claim C2: when a session exists yesterday but not today,
`calculate_streak_with_grace` reports `at_risk = true`, `grace_active =
true`, `practiced_today = false`, and its `streak` field counts the maximal
run of consecutive session days ending yesterday (every day it counts is a
session day, and the day just before the run is not). -/
theorem claim_C2 (s : Finset ℤ) (today : ℤ) (hy : today - 1 ∈ s) (ht : today ∉ s) :
    (calculate_streak_with_grace s today).at_risk = true ∧
    (calculate_streak_with_grace s today).grace_active = true ∧
    (calculate_streak_with_grace s today).practiced_today = false ∧
    (∀ k : ℕ, k < (calculate_streak_with_grace s today).streak →
      today - 1 - (k : ℤ) ∈ s) ∧
    today - 1 - ((calculate_streak_with_grace s today).streak : ℤ) ∉ s := by
  have hne : s ≠ ∅ := Finset.ne_empty_of_mem hy
  have hres : calculate_streak_with_grace s today =
      ⟨runLen s (today - 1), true, true, false⟩ := by
    unfold calculate_streak_with_grace
    rw [if_neg hne, if_neg ht, if_pos hy]
  rw [hres]
  refine ⟨rfl, rfl, rfl, ?_, ?_⟩
  · intro k hk
    exact runLen_mem_of_lt s k (today - 1) hk
  · exact runLen_boundary s _ (today - 1) rfl

/-- Witness for C2: the spec scenario — sessions on 2024-01-01 and
2024-01-02 (days 738886, 738887) only, today = 2024-01-03 (day 738888) —
gives `{streak := 2, at_risk := true, grace_active := true,
practiced_today := false}`. -/
theorem claim_C2_witness :
    calculate_streak_with_grace ({738886, 738887} : Finset ℤ) 738888 =
      ⟨2, true, true, false⟩ ∧
    (calculate_streak_with_grace ({738886, 738887} : Finset ℤ) 738888).at_risk = true := by
  have h0 : runLen ({738886, 738887} : Finset ℤ) 738885 = 0 := runLen_notMem (by decide)
  have h1 : runLen ({738886, 738887} : Finset ℤ) 738886 = 1 := by
    rw [runLen_mem (show (738886 : ℤ) ∈ ({738886, 738887} : Finset ℤ) by decide),
      show (738886 : ℤ) - 1 = 738885 by norm_num, h0]
  have h2 : runLen ({738886, 738887} : Finset ℤ) 738887 = 2 := by
    rw [runLen_mem (show (738887 : ℤ) ∈ ({738886, 738887} : Finset ℤ) by decide),
      show (738887 : ℤ) - 1 = 738886 by norm_num, h1]
  have hres : calculate_streak_with_grace ({738886, 738887} : Finset ℤ) 738888 =
      ⟨2, true, true, false⟩ := by
    unfold calculate_streak_with_grace
    rw [if_neg (by decide), if_neg (by decide), if_pos (by decide),
      show (738888 : ℤ) - 1 = 738887 by norm_num, h2]
  exact ⟨hres, (claim_C2 {738886, 738887} 738888 (by decide) (by decide)).1⟩

/-- Claim C3: whenever rule 1 (streak at risk, not practiced today) and rule
2 (`vn_percent < py_percent` and `vn_percent < 70`) both hold,
`determine_daily_focus` returns exactly the rule-1 streak-protection record
(area `vietnamese`, priority `urgent`): the first matching rule of the
cascade wins and nothing is merged in from rule 2. -/
theorem claim_C3 (choice : List String → String) (mins_today : ℤ)
    (py_percent vn_percent income_percent : ℤ) (si : GraceResult)
    (h1 : si.at_risk = true) (h2 : si.practiced_today = false)
    (h3 : vn_percent < py_percent) (h4 : vn_percent < 70) :
    determine_daily_focus choice mins_today py_percent vn_percent income_percent si =
      ⟨"vietnamese", "urgent",
       "Your " ++ toString si.streak ++ "-day streak is at risk!",
       "Just " ++ toString (max 15 (60 - mins_today)) ++ " more minutes to keep it alive",
       "🔥"⟩ := by
  unfold determine_daily_focus
  rw [if_pos ⟨by rw [h1], h2⟩]

/-- Witness for C3: an input matching rule 1 and rule 2 simultaneously (a
5-day streak at risk, Vietnamese at 40% versus Python at 80%) yields the
rule-1 record. -/
theorem claim_C3_witness :
    determine_daily_focus fixed_choice 30 80 40 50 ⟨5, true, true, false⟩ =
      ⟨"vietnamese", "urgent",
       "Your " ++ toString (5 : ℕ) ++ "-day streak is at risk!",
       "Just " ++ toString (max 15 (60 - (30 : ℤ))) ++ " more minutes to keep it alive",
       "🔥"⟩ :=
  claim_C3 fixed_choice 30 80 40 50 ⟨5, true, true, false⟩ rfl rfl (by decide) (by decide)

/-- Claim C4, counterexample: `week_progress` in `get_python_data`
(`src/app/routes/today.py` line 67) treats a zero weekly target as 0%, not
as "100% met". -/
theorem claim_C4_counterexample :
    get_python_data_week_progress 3 0 = 0 ∧
    get_python_data_week_progress 3 0 ≠ 100 := by
  constructor <;> norm_num [get_python_data_week_progress]

/-- Claim C4 (amended): a zero target never causes a division error, but the
zero-target percent differs by call site — the three percents of
`get_recommendations` / `get_smart_focus` become 100, while the today-page
progress percentages (daily and weekly for both tracks, and income
progress) become 0. -/
theorem claim_C4_amended :
    (∀ a : ℚ, get_recommendations_percent a 0 = 100) ∧
    (∀ a : ℚ, get_python_data_daily_progress a 0 = 0) ∧
    (∀ a : ℚ, get_python_data_week_progress a 0 = 0) ∧
    (∀ a : ℚ, get_vietnamese_data_daily_progress a 0 = 0) ∧
    (∀ a : ℚ, get_vietnamese_data_week_progress a 0 = 0) ∧
    (∀ a : ℚ, get_income_data_progress a 0 = 0) := by
  refine ⟨fun a => ?_, fun a => ?_, fun a => ?_, fun a => ?_, fun a => ?_, fun a => ?_⟩ <;>
    simp [get_recommendations_percent, get_python_data_daily_progress,
      get_python_data_week_progress, get_vietnamese_data_daily_progress,
      get_vietnamese_data_week_progress, get_income_data_progress]

/-- Claim C5, counterexample: with a single project dated 2024-01-15 (day
738900), month start 2024-01-01 (day 738886) and today 2024-01-10 (day
738895), the code's "this month" rollup counts the amount although it is
dated after today, while the range sum described by the spec does not. -/
theorem claim_C5_counterexample :
    income_this_month [((738900 : ℤ), (100 : ℚ))] 738886 = 100 ∧
    income_in_range_spec [((738900 : ℤ), (100 : ℚ))] 738886 738895 = 0 := by
  constructor <;> norm_num [income_this_month, income_in_range_spec]

/-- Claim C5 (amended): the "this month" rollup sums every amount dated on
or after day 1 of the current month, with no upper bound; it agrees with the
inclusive range `[month_start, today]` described by the spec exactly when no
stored amount is dated after today. -/
theorem claim_C5_amended (projects : List (ℤ × ℚ)) (month_start today : ℤ)
    (h : ∀ p ∈ projects, p.1 ≤ today) :
    income_this_month projects month_start =
      income_in_range_spec projects month_start today := by
  unfold income_this_month income_in_range_spec
  have hf : ∀ p ∈ projects,
      (decide (month_start ≤ p.1)) = (decide (month_start ≤ p.1 ∧ p.1 ≤ today)) := by
    intro p hp
    have hpt := h p hp
    by_cases hm : month_start ≤ p.1 <;> simp [hm, hpt]
  rw [List.filter_congr hf]

/-- Witness for C5 (amended): a project dated 2024-01-05 (day 738890), month
start day 738886, today day 738895 — nothing dated after today, so the two
rollups agree. -/
theorem claim_C5_witness :
    income_this_month [((738890 : ℤ), (100 : ℚ))] 738886 =
      income_in_range_spec [((738890 : ℤ), (100 : ℚ))] 738886 738895 :=
  claim_C5_amended [((738890 : ℤ), (100 : ℚ))] 738886 738895 (by decide)

/-- Claim C6: the grade cascade maps an average percent to 'A' exactly when
it is ≥ 90, to 'B' exactly on [75, 90), to 'C' exactly on [60, 75), to 'D'
exactly below 60; in particular 90 ↦ 'A', 89.99 ↦ 'B', 60 ↦ 'C',
59.99 ↦ 'D'. -/
theorem claim_C6 :
    (∀ a : ℚ,
      (grade a = 'A' ↔ 90 ≤ a) ∧
      (grade a = 'B' ↔ 75 ≤ a ∧ a < 90) ∧
      (grade a = 'C' ↔ 60 ≤ a ∧ a < 75) ∧
      (grade a = 'D' ↔ a < 60)) ∧
    grade 90 = 'A' ∧ grade (8999 / 100) = 'B' ∧
    grade 60 = 'C' ∧ grade (5999 / 100) = 'D' := by
  have hmain : ∀ a : ℚ,
      (grade a = 'A' ↔ 90 ≤ a) ∧
      (grade a = 'B' ↔ 75 ≤ a ∧ a < 90) ∧
      (grade a = 'C' ↔ 60 ≤ a ∧ a < 75) ∧
      (grade a = 'D' ↔ a < 60) := by
    intro a
    unfold grade
    split_ifs with h1 h2 h3 <;>
      simp only [not_le] at * <;>
      refine ⟨⟨fun hc => ?_, fun hp => ?_⟩, ⟨fun hc => ?_, fun hp => ?_⟩,
        ⟨fun hc => ?_, fun hp => ?_⟩, ⟨fun hc => ?_, fun hp => ?_⟩⟩ <;>
      first
        | trivial
        | (exact absurd hc (by decide))
        | linarith
        | (exact ⟨by linarith, by linarith⟩)
        | (exfalso; obtain ⟨hp1, hp2⟩ := hp; linarith)
        | (exfalso; linarith)
  refine ⟨hmain, ?_, ?_, ?_, ?_⟩
  · exact (hmain 90).1.mpr (by norm_num)
  · exact (hmain (8999 / 100)).2.1.mpr (by norm_num)
  · exact (hmain 60).2.2.1.mpr (by norm_num)
  · exact (hmain (5999 / 100)).2.2.2.mpr (by norm_num)

/-- Claim C7: when the cumulative total reaches or exceeds the target, the
required weekly rate of the pacing projector is 0 whatever the number of
days remaining (hours_remaining clamps at 0, and `round(0 / w, 1) = 0`). -/
theorem claim_C7 (target total : ℚ) (days : ℤ) (h : target ≤ total) :
    required_weekly_rate target total days = 0 := by
  unfold required_weekly_rate hours_remaining
  rw [max_eq_left (by linarith), zero_div]
  unfold roundTo1 roundHalfEven
  norm_num

/-- Witness for C7: total = target = 600 hours with 70 days to the deadline
gives a required weekly rate of 0. -/
theorem claim_C7_witness : required_weekly_rate 600 600 70 = 0 :=
  claim_C7 600 600 70 (by norm_num)

/-- Claim C8: the goal-adjustment advisory proposes `max(4, floor(target *
0.7))` for each track exactly when both percents are below 50, and proposes
nothing (None) otherwise. -/
theorem claim_C8 (py_percent vn_percent : ℤ) (py_target vn_target : ℚ)
    (hpt : 0 ≤ py_target) (hvt : 0 ≤ vn_target) :
    (py_percent < 50 → vn_percent < 50 →
      goal_adjustment py_percent vn_percent py_target vn_target =
        some ⟨true,
          "Consider adjusting targets: Python to " ++
            toString (max 4 ⌊py_target * (7 / 10)⌋) ++
            "h/week, Vietnamese to " ++
            toString (max 4 ⌊vn_target * (7 / 10)⌋) ++ "h/week",
          max 4 ⌊py_target * (7 / 10)⌋, max 4 ⌊vn_target * (7 / 10)⌋⟩) ∧
    (¬(py_percent < 50 ∧ vn_percent < 50) →
      goal_adjustment py_percent vn_percent py_target vn_target = none) := by
  have hp : pyInt (py_target * (7 / 10)) = ⌊py_target * (7 / 10)⌋ := by
    unfold pyInt
    rw [if_pos (by positivity)]
  have hv : pyInt (vn_target * (7 / 10)) = ⌊vn_target * (7 / 10)⌋ := by
    unfold pyInt
    rw [if_pos (by positivity)]
  constructor
  · intro h1 h2
    unfold goal_adjustment
    rw [if_pos ⟨h1, h2⟩, hp, hv]
  · intro h
    unfold goal_adjustment
    rw [if_neg h]

/-- Witness for C8: percents 30 and 40 with weekly targets 8 and 7 produce
the adjustment record with suggestions `max(4, floor(5.6)) = 5` and
`max(4, floor(4.9)) = 4`. -/
theorem claim_C8_witness :
    goal_adjustment 30 40 8 7 =
      some ⟨true,
        "Consider adjusting targets: Python to " ++
          toString (max 4 ⌊(8 : ℚ) * (7 / 10)⌋) ++
          "h/week, Vietnamese to " ++
          toString (max 4 ⌊(7 : ℚ) * (7 / 10)⌋) ++ "h/week",
        max 4 ⌊(8 : ℚ) * (7 / 10)⌋, max 4 ⌊(7 : ℚ) * (7 / 10)⌋⟩ :=
  (claim_C8 30 40 8 7 (by norm_num) (by norm_num)).1 (by decide) (by decide)

/-- Claim C9: applying a partial settings update that supplies only the
`income_target` key replaces that key's value and leaves the value stored
under every other key — including the nested exchange-rates map — exactly as
it was. -/
theorem claim_C9 (s : List (String × SVal)) (v : SVal) :
    ((update_settings s [("income_target", v)]).lookup "exchange_rates" =
      s.lookup "exchange_rates") ∧
    (∀ k : String, k ≠ "income_target" →
      (update_settings s [("income_target", v)]).lookup k = s.lookup k) ∧
    ((update_settings s [("income_target", v)]).lookup "income_target" =
      (s.lookup "income_target").map fun _ => v) := by
  have hup : update_settings s [("income_target", v)] =
      set_if_present s "income_target" v := rfl
  refine ⟨?_, ?_, ?_⟩
  · rw [hup, lookup_set_if_present, if_neg (by decide)]
  · intro k hk
    rw [hup, lookup_set_if_present, if_neg hk]
  · rw [hup, lookup_set_if_present, if_pos rfl]

/-- Witness for C9: updating only `income_target` on the default settings
leaves `savings` (and, by the theorem, every other key) unchanged. -/
theorem claim_C9_witness :
    (update_settings default_settings [("income_target", SVal.num 9000)]).lookup
        "savings" =
      default_settings.lookup "savings" :=
  (claim_C9 default_settings (SVal.num 9000)).2.1 "savings" (by decide)

/-- Claim C10: the strict streak function and the grace variant always agree
on the streak count — `calculate_streak` equals the `streak` field of
`calculate_streak_with_grace` for every session-date set and every today. -/
theorem claim_C10 (s : Finset ℤ) (today : ℤ) :
    calculate_streak s today = (calculate_streak_with_grace s today).streak := by
  unfold calculate_streak calculate_streak_with_grace
  split_ifs <;> rfl

end Hanoi
